import Mathlib

/-!
Shallow embedding of `src/dv_flow/libyosys/synth.py` (yosys synthesis task
library).  Pure script composition is modelled as lists of written lines;
the external tool invocation and the filesystem are modelled by an explicit
environment `Env` supplying the exit status and a file-existence predicate.
All definitions are translated directly from the Python source.
-/

namespace Yosys

/-- POSIX `os.path.join a b` for the two-argument case used in the source:
`b` absolute (leading slash) wins; empty `a` yields `b`; otherwise the parts
are joined, inserting a slash unless `a` already ends with one. -/
def pjoin (a b : String) : String :=
  if b.data.head? = some '/' then b
  else if a = "" then b
  else if a.data.getLast? = some '/' then a ++ b
  else a ++ "/" ++ b

/-- Python truthiness of `s.strip()`: the stripped string is non-empty
exactly when `s` contains some non-whitespace character. -/
def stripNonempty (s : String) : Bool :=
  s.data.any (fun c => !c.isWhitespace)

/-- An input file set (`std.FileSet` objects arriving on `input.inputs`). -/
structure InFileSet where
  type : String
  filetype : String
  basedir : String
  files : List String
  incdirs : List String
deriving DecidableEq, Repr

/-- The task parameter object.  Python `None`/missing string parameters are
modelled as `""` (both are falsy under Python truth testing, which is the
only way the source consumes them); missing booleans as `false`. -/
structure Params where
  top : String := ""
  output_format : String := ""
  flatten : Bool := false
  nofsm : Bool := false
  noabc : Bool := false
  retime : Bool := false
  device : String := ""
  dff : Bool := false
  nocarry : Bool := false
  nobram : Bool := false
  dsp : Bool := false
  abc9 : Bool := false
  family : String := ""
  nodsp : Bool := false
  noiopad : Bool := false
  noclkbuf : Bool := false
  bv : Bool := false
  mem : Bool := false
  wires : Bool := false
  script : String := ""
  read_rtl : Bool := false
  args : List String := []
deriving DecidableEq, Repr

/-- The task input: name, run directory, input file sets and parameters. -/
structure TaskInput where
  name : String
  rundir : String
  inputs : List InFileSet
  params : Params
deriving DecidableEq, Repr

/-- Environment for one task invocation: the exit status returned by
`ctxt.exec` and the `os.path.isfile` predicate at resolution time. -/
structure Env where
  status : Int
  isfile : String → Bool

/-- An output `FileSet` artifact. -/
structure FileSet where
  src : String
  filetype : String
  basedir : String
  files : List String
  attributes : List String
deriving DecidableEq, Repr

/-- Result object `TaskDataResult`. -/
structure TaskDataResult where
  status : Int
  output : List FileSet
deriving DecidableEq, Repr

/-- Model of `_collect_rtl`: partition the input file sets into RTL sources
(path, is_sv), include directories and liberty library files, in discovery
order. -/
def collectRtl : List InFileSet → List (String × Bool) × List String × List String
  | [] => ([], [], [])
  | fs :: rest =>
    let (s, i, l) := collectRtl rest
    if fs.type ≠ "std.FileSet" then (s, i, l)
    else if fs.filetype = "verilogSource" ∨ fs.filetype = "systemVerilogSource" then
      (fs.files.map (fun f => (pjoin fs.basedir f, fs.filetype == "systemVerilogSource")) ++ s,
       fs.incdirs.map (fun d => pjoin fs.basedir d) ++ i, l)
    else if fs.filetype = "verilogIncDir" then
      (s, (if stripNonempty fs.basedir then [fs.basedir] else []) ++ i, l)
    else if fs.filetype = "verilogInclude" ∨ fs.filetype = "systemVerilogInclude" then
      (s, fs.incdirs.map (fun d => pjoin fs.basedir d) ++ i, l)
    else if fs.filetype = "libertyLib" then
      (s, i,
       (fs.files.map (fun f => pjoin fs.basedir f)
        ++ if fs.files = [] ∧ stripNonempty fs.basedir then [fs.basedir] else []) ++ l)
    else (s, i, l)

/-- Model of `_write_read_cmds`: one `read_verilog -incdir` line per include dir,
then one `read_verilog` line per source with `-sv` toggled per entry. -/
def readCmdLines (sources : List (String × Bool)) (incdirs : List String) : List String :=
  incdirs.map (fun d => "read_verilog -incdir " ++ d)
  ++ sources.map (fun sf => "read_verilog" ++ (if sf.2 then " -sv" else "") ++ " " ++ sf.1)

/-- Effective output format of the generic/family variants:
`input.params.output_format or "json"`. -/
def effFormat (p : Params) : String :=
  if p.output_format = "" then "json" else p.output_format

/-- The generic `synth` command string built by `Synth` (source lines 88–99). -/
def synthCmdStr (p : Params) : String :=
  let c := "synth"
  let c := if p.top ≠ "" then c ++ " -top " ++ p.top else c
  let c := if p.flatten then c ++ " -flatten" else c
  let c := if p.nofsm then c ++ " -nofsm" else c
  let c := if p.noabc then c ++ " -noabc" else c
  if p.retime then c ++ " -retime" else c

/-- The lines written to `synth.ys` by the generic `Synth` task. -/
def synthScript (rundir : String) (p : Params)
    (sources : List (String × Bool)) (incdirs libs : List String) : List String :=
  let fmt := effFormat p
  let out_path := pjoin rundir ("netlist." ++ fmt)
  readCmdLines sources incdirs
  ++ libs.map (fun lib => "read_liberty -lib " ++ lib)
  ++ [synthCmdStr p]
  ++ (match libs with
      | [] => []
      | l0 :: _ => ["dfflibmap -liberty " ++ l0, "abc -liberty " ++ l0])
  ++ ["opt_clean"]
  ++ (match libs with
      | [] => ["stat"]
      | l0 :: _ => ["stat -liberty " ++ l0])
  ++ (if fmt = "json" then ["write_json " ++ out_path]
      else if fmt = "verilog" then ["write_verilog " ++ out_path]
      else if fmt = "blif" then ["write_blif " ++ out_path]
      else if fmt = "edif" then ["write_edif " ++ out_path]
      else if fmt = "rtlil" then ["write_rtlil " ++ out_path]
      else [])
  ++ p.args

/-- The result of the generic `Synth` task (status and artifact resolution,
source lines 127–140). -/
def synthRun (input : TaskInput) (env : Env) : TaskDataResult :=
  let p := input.params
  let fmt := effFormat p
  let out_file := "netlist." ++ fmt
  let out_path := pjoin input.rundir out_file
  let output :=
    if env.status = 0 ∧ env.isfile out_path = true then
      [{ src := input.name, filetype := "yosysNetlist", basedir := input.rundir,
         files := [out_file],
         attributes := ["format=" ++ fmt]
           ++ (if p.top ≠ "" then ["top=" ++ p.top] else []) }]
    else []
  { status := env.status, output := output }

/-- The `synth_ice40` command string built by `SynthIce40`
(source lines 164–186), embedded write flag included. -/
def ice40CmdStr (rundir : String) (p : Params) : String :=
  let fmt := effFormat p
  let out_path := pjoin rundir ("netlist." ++ fmt)
  let device := if p.device = "" then "hx" else p.device
  let c := "synth_ice40 -device " ++ device
  let c := if p.top ≠ "" then c ++ " -top " ++ p.top else c
  let c := if p.dff then c ++ " -dff" else c
  let c := if p.retime then c ++ " -retime" else c
  let c := if p.nocarry then c ++ " -nocarry" else c
  let c := if p.nobram then c ++ " -nobram" else c
  let c := if p.dsp then c ++ " -dsp" else c
  let c := if p.abc9 then c ++ " -abc9" else c
  if fmt = "json" then c ++ " -json " ++ out_path
  else if fmt = "blif" then c ++ " -blif " ++ out_path
  else if fmt = "edif" then c ++ " -edif " ++ out_path
  else c

/-- The lines written to `synth.ys` by `SynthIce40`. -/
def ice40Script (rundir : String) (p : Params)
    (sources : List (String × Bool)) (incdirs : List String) : List String :=
  readCmdLines sources incdirs ++ [ice40CmdStr rundir p] ++ p.args

/-- The result of `SynthIce40` (source lines 191–205). -/
def ice40Run (input : TaskInput) (env : Env) : TaskDataResult :=
  let p := input.params
  let fmt := effFormat p
  let device := if p.device = "" then "hx" else p.device
  let out_file := "netlist." ++ fmt
  let out_path := pjoin input.rundir out_file
  let output :=
    if env.status = 0 ∧ env.isfile out_path = true then
      [{ src := input.name, filetype := "yosysNetlist", basedir := input.rundir,
         files := [out_file],
         attributes := ["format=" ++ fmt, "target=ice40", "device=" ++ device]
           ++ (if p.top ≠ "" then ["top=" ++ p.top] else []) }]
    else []
  { status := env.status, output := output }

/-- The `synth_xilinx` command string built by `SynthXilinx`
(source lines 231–257). -/
def xilinxCmdStr (rundir : String) (p : Params) : String :=
  let fmt := effFormat p
  let out_path := pjoin rundir ("netlist." ++ fmt)
  let family := if p.family = "" then "xc7" else p.family
  let c := "synth_xilinx -family " ++ family
  let c := if p.top ≠ "" then c ++ " -top " ++ p.top else c
  let c := if p.flatten then c ++ " -flatten" else c
  let c := if p.dff then c ++ " -dff" else c
  let c := if p.retime then c ++ " -retime" else c
  let c := if p.nobram then c ++ " -nobram" else c
  let c := if p.nodsp then c ++ " -nodsp" else c
  let c := if p.noiopad then c ++ " -noiopad" else c
  let c := if p.noclkbuf then c ++ " -noclkbuf" else c
  let c := if p.abc9 then c ++ " -abc9" else c
  if fmt = "json" then c ++ " -json " ++ out_path
  else if fmt = "edif" then c ++ " -edif " ++ out_path
  else if fmt = "blif" then c ++ " -blif " ++ out_path
  else c

/-- The lines written to `synth.ys` by `SynthXilinx`. -/
def xilinxScript (rundir : String) (p : Params)
    (sources : List (String × Bool)) (incdirs : List String) : List String :=
  readCmdLines sources incdirs ++ [xilinxCmdStr rundir p] ++ p.args

/-- The result of `SynthXilinx` (source lines 262–276). -/
def xilinxRun (input : TaskInput) (env : Env) : TaskDataResult :=
  let p := input.params
  let fmt := effFormat p
  let family := if p.family = "" then "xc7" else p.family
  let out_file := "netlist." ++ fmt
  let out_path := pjoin input.rundir out_file
  let output :=
    if env.status = 0 ∧ env.isfile out_path = true then
      [{ src := input.name, filetype := "yosysNetlist", basedir := input.rundir,
         files := [out_file],
         attributes := ["format=" ++ fmt, "target=xilinx", "family=" ++ family]
           ++ (if p.top ≠ "" then ["top=" ++ p.top] else []) }]
    else []
  { status := env.status, output := output }

/-- The `synth_lattice` command string built by `SynthLattice`
(source lines 296–308). -/
def latticeCmdStr (rundir : String) (p : Params) : String :=
  let fmt := effFormat p
  let out_path := pjoin rundir ("netlist." ++ fmt)
  let family := if p.family = "" then "ecp5" else p.family
  let c := "synth_lattice -family " ++ family
  let c := if p.top ≠ "" then c ++ " -top " ++ p.top else c
  let c := if p.dff then c ++ " -dff" else c
  let c := if p.retime then c ++ " -retime" else c
  if fmt = "json" then c ++ " -json " ++ out_path
  else if fmt = "edif" then c ++ " -edif " ++ out_path
  else c

/-- The lines written to `synth.ys` by `SynthLattice`. -/
def latticeScript (rundir : String) (p : Params)
    (sources : List (String × Bool)) (incdirs : List String) : List String :=
  readCmdLines sources incdirs ++ [latticeCmdStr rundir p] ++ p.args

/-- The result of `SynthLattice` (source lines 313–327). -/
def latticeRun (input : TaskInput) (env : Env) : TaskDataResult :=
  let p := input.params
  let fmt := effFormat p
  let family := if p.family = "" then "ecp5" else p.family
  let out_file := "netlist." ++ fmt
  let out_path := pjoin input.rundir out_file
  let output :=
    if env.status = 0 ∧ env.isfile out_path = true then
      [{ src := input.name, filetype := "yosysNetlist", basedir := input.rundir,
         files := [out_file],
         attributes := ["format=" ++ fmt, "target=lattice", "family=" ++ family]
           ++ (if p.top ≠ "" then ["top=" ++ p.top] else []) }]
    else []
  { status := env.status, output := output }

/-- The `synth_gowin` command string built by `SynthGowin`
(source lines 344–352). -/
def gowinCmdStr (rundir : String) (p : Params) : String :=
  let fmt := effFormat p
  let out_path := pjoin rundir ("netlist." ++ fmt)
  let c := "synth_gowin"
  let c := if p.top ≠ "" then c ++ " -top " ++ p.top else c
  if fmt = "json" then c ++ " -json " ++ out_path
  else if fmt = "verilog" then c ++ " -vout " ++ out_path
  else c

/-- The lines written to `synth.ys` by `SynthGowin`. -/
def gowinScript (rundir : String) (p : Params)
    (sources : List (String × Bool)) (incdirs : List String) : List String :=
  readCmdLines sources incdirs ++ [gowinCmdStr rundir p] ++ p.args

/-- The result of `SynthGowin` (source lines 357–371). -/
def gowinRun (input : TaskInput) (env : Env) : TaskDataResult :=
  let p := input.params
  let fmt := effFormat p
  let out_file := "netlist." ++ fmt
  let out_path := pjoin input.rundir out_file
  let output :=
    if env.status = 0 ∧ env.isfile out_path = true then
      [{ src := input.name, filetype := "yosysNetlist", basedir := input.rundir,
         files := [out_file],
         attributes := ["format=" ++ fmt, "target=gowin"]
           ++ (if p.top ≠ "" then ["top=" ++ p.top] else []) }]
    else []
  { status := env.status, output := output }

/-- The `write_smt2` command string built by `FormalPrepare`
(source lines 405–413). -/
def smt2CmdStr (rundir : String) (p : Params) : String :=
  let out_path := pjoin rundir "model.smt2"
  let c := "write_smt2"
  let c := if p.bv then c ++ " -bv" else c
  let c := if p.mem then c ++ " -mem" else c
  let c := if p.wires then c ++ " -wires" else c
  c ++ " " ++ out_path

/-- The lines written to `formal.ys` by `FormalPrepare` (source lines
387–416).  Note: only the per-source read lines carry `-formal`; the
`-incdir` lines are written without it. -/
def formalScript (rundir : String) (p : Params)
    (sources : List (String × Bool)) (incdirs : List String) : List String :=
  incdirs.map (fun d => "read_verilog -incdir " ++ d)
  ++ sources.map (fun sf =>
       "read_verilog -formal" ++ (if sf.2 then " -sv" else "") ++ " " ++ sf.1)
  ++ [if p.top ≠ "" then "hierarchy -top " ++ p.top else "hierarchy -auto-top"]
  ++ ["proc", "opt", "memory -nordff -nomap", "opt -fast"]
  ++ [smt2CmdStr rundir p]
  ++ p.args

/-- The result of `FormalPrepare` (source lines 418–431). -/
def formalRun (input : TaskInput) (env : Env) : TaskDataResult :=
  let p := input.params
  let out_file := "model.smt2"
  let out_path := pjoin input.rundir out_file
  let output :=
    if env.status = 0 ∧ env.isfile out_path = true then
      [{ src := input.name, filetype := "yosysSMT2", basedir := input.rundir,
         files := [out_file],
         attributes := if p.top ≠ "" then ["top=" ++ p.top] else [] }]
    else []
  { status := env.status, output := output }

/-- The chunks written to `user.ys` by `Script` (source lines 445–450).
Each element is one `fp.write` payload without its trailing newline; the
caller script body is a single (possibly multi-line) chunk. -/
def scriptChunks (p : Params)
    (sources : List (String × Bool)) (incdirs libs : List String) : List String :=
  (if p.read_rtl then
    readCmdLines sources incdirs ++ libs.map (fun lib => "read_liberty -lib " ++ lib)
   else [])
  ++ [p.script]

/-- The result of `Script` (source lines 452–468): the artifact gate also
requires a non-empty `output_format` (there is no `or "json"` default
here). -/
def scriptRun (input : TaskInput) (env : Env) : TaskDataResult :=
  let p := input.params
  let fmt := p.output_format
  let output :=
    if env.status = 0 ∧ fmt ≠ "" then
      let out_file := "netlist." ++ fmt
      let out_path := pjoin input.rundir out_file
      if env.isfile out_path = true then
        [{ src := input.name, filetype := "yosysNetlist", basedir := input.rundir,
           files := [out_file],
           attributes := ["format=" ++ fmt]
             ++ (if p.top ≠ "" then ["top=" ++ p.top] else []) }]
      else []
    else []
  { status := env.status, output := output }

/-- The seven task variants exported by the module. -/
inductive Variant
  | synth | ice40 | xilinx | lattice | gowin | formalPrepare | script
deriving DecidableEq, Repr

/-- Dispatch: run a variant on a task input in an environment. -/
def runVariant : Variant → TaskInput → Env → TaskDataResult
  | .synth => synthRun
  | .ice40 => ice40Run
  | .xilinx => xilinxRun
  | .lattice => latticeRun
  | .gowin => gowinRun
  | .formalPrepare => formalRun
  | .script => scriptRun

/-- Dispatch: the chunks each variant writes to its script file, one per
`fp.write`, computed from the task input alone. -/
def scriptChunksOf (v : Variant) (input : TaskInput) : List String :=
  let (sources, incdirs, libs) := collectRtl input.inputs
  match v with
  | .synth => synthScript input.rundir input.params sources incdirs libs
  | .ice40 => ice40Script input.rundir input.params sources incdirs
  | .xilinx => xilinxScript input.rundir input.params sources incdirs
  | .lattice => latticeScript input.rundir input.params sources incdirs
  | .gowin => gowinScript input.rundir input.params sources incdirs
  | .formalPrepare => formalScript input.rundir input.params sources incdirs
  | .script => scriptChunks input.params sources incdirs libs

/-- The script file's full text: every chunk is written followed by a
newline, in order. -/
def scriptTextOf (v : Variant) (input : TaskInput) : String :=
  String.join ((scriptChunksOf v input).map (fun c => c ++ "\n"))

/-! Spec-side decomposition of the Input Classifier (§4.1): the
contribution of one input collection to each of the three output lists.
These express the spec's wording — classification is the in-order
concatenation of per-collection contributions — and are compared with
`collectRtl`, which is translated from the source. -/

/-- Spec: sources contributed by one collection. -/
def srcContrib (fs : InFileSet) : List (String × Bool) :=
  if fs.type = "std.FileSet"
      ∧ (fs.filetype = "verilogSource" ∨ fs.filetype = "systemVerilogSource") then
    fs.files.map (fun f => (pjoin fs.basedir f, fs.filetype == "systemVerilogSource"))
  else []

/-- Spec: include directories contributed by one collection. -/
def incContrib (fs : InFileSet) : List String :=
  if fs.type ≠ "std.FileSet" then []
  else if fs.filetype = "verilogSource" ∨ fs.filetype = "systemVerilogSource" then
    fs.incdirs.map (fun d => pjoin fs.basedir d)
  else if fs.filetype = "verilogIncDir" then
    if stripNonempty fs.basedir then [fs.basedir] else []
  else if fs.filetype = "verilogInclude" ∨ fs.filetype = "systemVerilogInclude" then
    fs.incdirs.map (fun d => pjoin fs.basedir d)
  else []

/-- Spec: library files contributed by one collection. -/
def libContrib (fs : InFileSet) : List String :=
  if fs.type = "std.FileSet" ∧ fs.filetype = "libertyLib" then
    fs.files.map (fun f => pjoin fs.basedir f)
    ++ (if fs.files = [] ∧ stripNonempty fs.basedir then [fs.basedir] else [])
  else []

/-! Concrete fixtures used by scenario theorems and witnesses. -/

/-- A single SystemVerilog source `top.sv` in base dir `/d`. -/
def fsTopSv : InFileSet :=
  { type := "std.FileSet", filetype := "systemVerilogSource", basedir := "/d",
    files := ["top.sv"], incdirs := [] }

/-- Scenario-1 task input (generic variant), over an arbitrary run dir. -/
def c1Input (r : String) : TaskInput :=
  { name := "t", rundir := r, inputs := [fsTopSv],
    params := { top := "top", output_format := "json" } }

/-- An environment whose tool run succeeded and where every file exists. -/
def envOkAll : Env := { status := 0, isfile := fun _ => true }

/-- An environment whose tool run failed with status 2. -/
def envFail2 : Env := { status := 2, isfile := fun _ => true }

/-- An input collection with an unrecognized filetype. -/
def fsUnknown : InFileSet :=
  { type := "std.FileSet", filetype := "vhdlSource", basedir := "/v",
    files := ["a.vhd"], incdirs := [] }

/-- An include-directory-only input collection rooted at `/i`. -/
def fsIncDirOnly : InFileSet :=
  { type := "std.FileSet", filetype := "verilogIncDir", basedir := "/i",
    files := [], incdirs := [] }

/-- Formal-variant task input with one include directory and one source. -/
def c4Input : TaskInput :=
  { name := "f", rundir := "/r", inputs := [fsIncDirOnly, fsTopSv], params := {} }

/-- Spec-side decomposition of artifact attributes: the format tag a
variant emits (the formal variant emits none). -/
def formatTags (v : Variant) (p : Params) : List String :=
  match v with
  | .formalPrepare => []
  | .script => ["format=" ++ p.output_format]
  | _ => ["format=" ++ effFormat p]

/-- Spec-side decomposition: the variant-specific target family/device
tags. -/
def targetTags (v : Variant) (p : Params) : List String :=
  match v with
  | .ice40 => ["target=ice40", "device=" ++ (if p.device = "" then "hx" else p.device)]
  | .xilinx => ["target=xilinx", "family=" ++ (if p.family = "" then "xc7" else p.family)]
  | .lattice => ["target=lattice", "family=" ++ (if p.family = "" then "ecp5" else p.family)]
  | .gowin => ["target=gowin"]
  | _ => []

/-- Spec-side decomposition: the top-module tag, present only when a top
module was specified. -/
def topTags (p : Params) : List String :=
  if p.top ≠ "" then ["top=" ++ p.top] else []

/-- Formal-variant task input with a top module, used to refute C5. -/
def c5Input : TaskInput :=
  { name := "f5", rundir := "/r", inputs := [], params := { top := "t" } }

/-- Gowin-variant task input requesting the unsupported "edif" format. -/
def c7Input : TaskInput :=
  { name := "g", rundir := "/r", inputs := [], params := { output_format := "edif" } }

/-- Parameter set exercising the generic variant's optional flags. -/
def c3SynthP (t fl nf na rt : Bool) : Params :=
  { top := if t then "top" else "", flatten := fl, nofsm := nf, noabc := na,
    retime := rt }

/-- Parameter set exercising the iCE40 variant's optional flags. -/
def c3Ice40P (t df rt nc nb ds a9 : Bool) : Params :=
  { top := if t then "cpu" else "", dff := df, retime := rt, nocarry := nc,
    nobram := nb, dsp := ds, abc9 := a9 }

/-- Parameter set exercising the Lattice variant's optional flags. -/
def c3LatticeP (t df rt : Bool) : Params :=
  { top := if t then "m" else "", dff := df, retime := rt }

/-- Parameter set exercising the formal variant's optional flags. -/
def c3FormalP (b m w : Bool) : Params :=
  { bv := b, mem := m, wires := w }

/-- Raw-script task input with the output format left unset. -/
def c10Input : TaskInput :=
  { name := "s", rundir := "/r", inputs := [], params := { script := "stat" } }

/-- Helper for `splitWords`: accumulate the current word (reversed). -/
def splitWordsAux : List Char → List Char → List (List Char)
  | [], acc => if acc = [] then [] else [acc.reverse]
  | c :: cs, acc =>
    if c = ' ' then
      (if acc = [] then splitWordsAux cs [] else acc.reverse :: splitWordsAux cs [])
    else splitWordsAux cs (c :: acc)

/-- Split a character list into its space-separated words; a composed
directive's tokens are exactly these words. -/
def splitWords (l : List Char) : List (List Char) := splitWordsAux l []

/-- Parameter set exercising the Xilinx variant's optional flags. -/
def c3XilinxP (t fl df rt nb nd ni ncb a9 : Bool) : Params :=
  { top := if t then "cpu" else "", flatten := fl, dff := df, retime := rt,
    nobram := nb, nodsp := nd, noiopad := ni, noclkbuf := ncb, abc9 := a9 }

/-- Flags-only portion of the `synth_ice40` command (source lines 165–179):
the command as composed before the embedded write-flag branch. -/
def ice40FlagsStr (p : Params) : String :=
  let device := if p.device = "" then "hx" else p.device
  let c := "synth_ice40 -device " ++ device
  let c := if p.top ≠ "" then c ++ " -top " ++ p.top else c
  let c := if p.dff then c ++ " -dff" else c
  let c := if p.retime then c ++ " -retime" else c
  let c := if p.nocarry then c ++ " -nocarry" else c
  let c := if p.nobram then c ++ " -nobram" else c
  let c := if p.dsp then c ++ " -dsp" else c
  if p.abc9 then c ++ " -abc9" else c

/-- Flags-only portion of the `synth_xilinx` command (source lines
232–250): the command as composed before the embedded write-flag branch. -/
def xilinxFlagsStr (p : Params) : String :=
  let family := if p.family = "" then "xc7" else p.family
  let c := "synth_xilinx -family " ++ family
  let c := if p.top ≠ "" then c ++ " -top " ++ p.top else c
  let c := if p.flatten then c ++ " -flatten" else c
  let c := if p.dff then c ++ " -dff" else c
  let c := if p.retime then c ++ " -retime" else c
  let c := if p.nobram then c ++ " -nobram" else c
  let c := if p.nodsp then c ++ " -nodsp" else c
  let c := if p.noiopad then c ++ " -noiopad" else c
  let c := if p.noclkbuf then c ++ " -noclkbuf" else c
  if p.abc9 then c ++ " -abc9" else c

/-- Flags-only portion of the `synth_lattice` command (source lines
297–303): the command as composed before the embedded write-flag branch. -/
def latticeFlagsStr (p : Params) : String :=
  let family := if p.family = "" then "ecp5" else p.family
  let c := "synth_lattice -family " ++ family
  let c := if p.top ≠ "" then c ++ " -top " ++ p.top else c
  let c := if p.dff then c ++ " -dff" else c
  if p.retime then c ++ " -retime" else c

/-- Flags-only portion of the `synth_gowin` command (source lines
345–347): the command as composed before the embedded write-flag branch. -/
def gowinFlagsStr (p : Params) : String :=
  let c := "synth_gowin"
  if p.top ≠ "" then c ++ " -top " ++ p.top else c

/-- Output formats supported by each target family's synthesis directive
(the formats with an embedded write flag); other variants have none. -/
def familyFormats : Variant → List String
  | .ice40 => ["json", "blif", "edif"]
  | .xilinx => ["json", "edif", "blif"]
  | .lattice => ["json", "edif"]
  | .gowin => ["json", "verilog"]
  | _ => []

/-- Dispatch: the synthesis command of each target-family variant. -/
def familyCmdStr : Variant → String → Params → String
  | .ice40 => ice40CmdStr
  | .xilinx => xilinxCmdStr
  | .lattice => latticeCmdStr
  | .gowin => gowinCmdStr
  | _ => fun _ _ => ""

/-- Dispatch: the flags-only synthesis command of each target-family
variant. -/
def familyFlagsStr : Variant → Params → String
  | .ice40 => ice40FlagsStr
  | .xilinx => xilinxFlagsStr
  | .lattice => latticeFlagsStr
  | .gowin => gowinFlagsStr
  | _ => fun _ => ""

/-- One step of the classifier: a collection's contribution is prepended
to the classification of the remaining collections, componentwise. -/
theorem collectRtl_cons (fs : InFileSet) (rest : List InFileSet) :
    collectRtl (fs :: rest) =
      (srcContrib fs ++ (collectRtl rest).1,
       incContrib fs ++ (collectRtl rest).2.1,
       libContrib fs ++ (collectRtl rest).2.2) := by
  rcases hr : collectRtl rest with ⟨s, i, l⟩
  simp only [collectRtl, hr, srcContrib, incContrib, libContrib]
  split_ifs <;> simp_all

/-- C1: generic variant, one SV source `top.sv` in `/d`, no includes, no
libraries, format "json", top "top": the script contains
`read_verilog -sv /d/top.sv`, `synth -top top`, `opt_clean`, `stat`,
`write_json <rundir>/netlist.json` in that order, and on status 0 with the
predicted file present the artifact's attributes are exactly
`["format=json", "top=top"]`. -/
theorem C1_generic_scenario (r : String) (env : Env)
    (h0 : env.status = 0) (hf : env.isfile (pjoin r "netlist.json") = true) :
    List.Sublist
      ["read_verilog -sv /d/top.sv", "synth -top top", "opt_clean", "stat",
       "write_json " ++ pjoin r "netlist.json"]
      (scriptChunksOf .synth (c1Input r))
    ∧ (synthRun (c1Input r) env).output.map FileSet.attributes
        = [["format=json", "top=top"]] := by
  have hs : scriptChunksOf .synth (c1Input r)
      = ["read_verilog -sv /d/top.sv", "synth -top top", "opt_clean", "stat",
         "write_json " ++ pjoin r "netlist.json"] := rfl
  refine ⟨hs ▸ List.Sublist.refl _, ?_⟩
  have hnj : ("netlist." ++ "json" : String) = "netlist.json" := rfl
  simp [synthRun, effFormat, hnj, h0, hf, c1Input]

/-- Witness for C1 at run dir `/run` and an all-files-exist environment. -/
theorem C1_generic_scenario_witness :
    List.Sublist
      ["read_verilog -sv /d/top.sv", "synth -top top", "opt_clean", "stat",
       "write_json " ++ pjoin "/run" "netlist.json"]
      (scriptChunksOf .synth (c1Input "/run"))
    ∧ (synthRun (c1Input "/run") envOkAll).output.map FileSet.attributes
        = [["format=json", "top=top"]] :=
  C1_generic_scenario "/run" envOkAll rfl rfl

/-- C2: for every variant, input and environment, a nonzero exit status is
passed through unchanged and the output artifact list is empty, whatever
the file-existence predicate says. -/
theorem C2_nonzero_status_no_artifact (v : Variant) (input : TaskInput) (env : Env)
    (h : env.status ≠ 0) :
    (runVariant v input env).status = env.status
    ∧ (runVariant v input env).output = [] := by
  cases v <;>
    simp [runVariant, synthRun, ice40Run, xilinxRun, latticeRun, gowinRun,
      formalRun, scriptRun, h]

/-- Witness for C2: generic variant with status 2 and all files present. -/
theorem C2_nonzero_status_no_artifact_witness :
    (runVariant .synth (c1Input "/run") envFail2).status = envFail2.status
    ∧ (runVariant .synth (c1Input "/run") envFail2).output = [] :=
  C2_nonzero_status_no_artifact .synth (c1Input "/run") envFail2 (by decide)

/-- C6: iCE40 variant, device unset (default "hx"), top "cpu", dff true,
all other optional flags unset, format "blif": the synthesis directive is
exactly `synth_ice40 -device hx -top cpu -dff -blif <rundir>/netlist.blif`. -/
theorem C6_ice40_scenario (r : String) :
    ice40CmdStr r { top := "cpu", dff := true, output_format := "blif" }
      = "synth_ice40 -device hx -top cpu -dff -blif " ++ pjoin r "netlist.blif" := rfl

/-- C9: script composition is deterministic — identical classified inputs
and parameters give byte-identical script text, for every variant. -/
theorem C9_composition_deterministic (v : Variant) (i₁ i₂ : TaskInput)
    (h : i₁ = i₂) : scriptTextOf v i₁ = scriptTextOf v i₂ := by rw [h]

/-- Witness for C9 at the scenario-1 input. -/
theorem C9_composition_deterministic_witness :
    scriptTextOf .synth (c1Input "/run") = scriptTextOf .synth (c1Input "/run") :=
  C9_composition_deterministic .synth (c1Input "/run") (c1Input "/run") rfl

/-- C10: raw-script variant — with an empty (unset) output format the
output list is empty even on status 0-whatever files exist; an artifact is
produced exactly when the format is non-empty, the status is 0 and
`netlist.<format>` exists in the run directory. -/
theorem C10_script_artifact_gate (input : TaskInput) (env : Env) :
    (input.params.output_format = "" → (scriptRun input env).output = [])
    ∧ ((scriptRun input env).output ≠ [] ↔
        input.params.output_format ≠ "" ∧ env.status = 0 ∧
        env.isfile (pjoin input.rundir ("netlist." ++ input.params.output_format))
          = true) := by
  constructor
  · intro h; simp [scriptRun, h]
  · by_cases h0 : env.status = 0 <;> by_cases hf : input.params.output_format = "" <;>
      simp [scriptRun, h0, hf]

/-- C8: classification is the order-preserving concatenation of each
collection's own contribution — discovery order within each of the three
output lists, no reordering, sorting or deduplication — and a collection
whose kind is not recognized (wrong type tag, or a filetype outside the
recognized set) contributes nothing to any list. -/
theorem C8_classifier_order (inputs : List InFileSet) (fs : InFileSet)
    (h : fs.type ≠ "std.FileSet" ∨
      fs.filetype ∉ (["verilogSource", "systemVerilogSource", "verilogIncDir",
        "verilogInclude", "systemVerilogInclude", "libertyLib"] : List String)) :
    collectRtl inputs
      = (inputs.flatMap srcContrib, inputs.flatMap incContrib, inputs.flatMap libContrib)
    ∧ srcContrib fs = [] ∧ incContrib fs = [] ∧ libContrib fs = [] := by
  constructor
  · induction inputs with
    | nil => rfl
    | cons g rest ih => rw [collectRtl_cons, ih]; simp
  · rcases h with h | h
    · simp [srcContrib, incContrib, libContrib, h]
    · simp only [List.mem_cons, List.mem_singleton, not_or] at h
      obtain ⟨h1, h2, h3, h4, h5, h6⟩ := h
      simp [srcContrib, incContrib, libContrib, h1, h2, h3, h4, h5, h6]

/-- Witness for C8 on a two-collection list containing an unrecognized
collection. -/
theorem C8_classifier_order_witness :
    collectRtl [fsTopSv, fsUnknown]
      = ([fsTopSv, fsUnknown].flatMap srcContrib,
         [fsTopSv, fsUnknown].flatMap incContrib,
         [fsTopSv, fsUnknown].flatMap libContrib)
    ∧ srcContrib fsUnknown = [] ∧ incContrib fsUnknown = [] ∧ libContrib fsUnknown = [] :=
  C8_classifier_order [fsTopSv, fsUnknown] fsUnknown (by decide)

/-- C4 counterexample: in the formal variant's script for `c4Input`, the
include-directory read directive `read_verilog -incdir /i` (a line starting
with `read_verilog`) does NOT carry the `-formal` flag, so not every read
directive carries it. -/
theorem C4_counterexample :
    "read_verilog -incdir /i" ∈ scriptChunksOf .formalPrepare c4Input
    ∧ "read_verilog".data <+: "read_verilog -incdir /i".data
    ∧ ¬ ("-formal".data <:+: "read_verilog -incdir /i".data) := by
  refine ⟨?_, by decide, by decide⟩
  have hs : scriptChunksOf .formalPrepare c4Input
      = ["read_verilog -incdir /i", "read_verilog -formal -sv /d/top.sv",
         "hierarchy -auto-top", "proc", "opt", "memory -nordff -nomap", "opt -fast",
         "write_smt2 /r/model.smt2"] := rfl
  rw [hs]
  simp

/-- C4 (amended): in the formal-model variant every *source* read
directive - whatever the source's type, Verilog or SystemVerilog - carries
the `-formal` flag; include-directory read directives are emitted without
it. -/
theorem C4_formal_source_reads (rundir : String) (p : Params)
    (sources : List (String × Bool)) (incdirs : List String)
    (sf : String × Bool) (h : sf ∈ sources) :
    ("read_verilog -formal" ++ (if sf.2 then " -sv" else "") ++ " " ++ sf.1)
        ∈ formalScript rundir p sources incdirs
    ∧ "-formal".data <:+:
        ("read_verilog -formal" ++ (if sf.2 then " -sv" else "") ++ " " ++ sf.1).data := by
  constructor
  · exact List.mem_append_left _ (List.mem_append_left _ (List.mem_append_left _
      (List.mem_append_left _ (List.mem_append_right _ (List.mem_map_of_mem _ h)))))
  · refine ⟨"read_verilog ".data,
      ((if sf.2 then " -sv" else "") ++ " " ++ sf.1).data, ?_⟩
    have hsplit : ("read_verilog -formal" : String)
        = "read_verilog " ++ "-formal" := rfl
    rw [hsplit]
    simp [String.data_append, List.append_assoc]

/-- Witness for the amended C4 at a concrete source list. -/
theorem C4_formal_source_reads_witness :
    ("read_verilog -formal" ++ (if (("/d/top.sv", true) : String × Bool).2 then " -sv" else "")
        ++ " " ++ (("/d/top.sv", true) : String × Bool).1)
      ∈ formalScript "/r" {} [("/d/top.sv", true)] ["/i"]
    ∧ "-formal".data <:+:
        ("read_verilog -formal" ++ (if (("/d/top.sv", true) : String × Bool).2 then " -sv" else "")
          ++ " " ++ (("/d/top.sv", true) : String × Bool).1).data :=
  C4_formal_source_reads "/r" {} [("/d/top.sv", true)] ["/i"] ("/d/top.sv", true)
    (by decide)

/-- C5 counterexample: the formal variant's artifact (here with top "t",
status 0 and the model file present) has attribute list `["top=t"]`,
whose first element is not a format tag, so the format tag is not always
first. -/
theorem C5_counterexample :
    (runVariant .formalPrepare c5Input envOkAll).output.map FileSet.attributes
      = [["top=t"]]
    ∧ ¬ ("format=".data <+: "top=t".data) := by
  constructor
  · rfl
  · decide

/-- C5 (amended): every produced artifact's attribute list is, in order,
the variant's format tag (absent for the formal variant, which has no
format parameter), then the variant-specific target family/device tags,
then the top-module tag exactly when a top module was specified. -/
theorem C5_attribute_order (v : Variant) (input : TaskInput) (env : Env)
    (a : FileSet) (h : a ∈ (runVariant v input env).output) :
    a.attributes
      = formatTags v input.params ++ targetTags v input.params
        ++ topTags input.params := by
  cases v <;>
    (simp only [runVariant, synthRun, ice40Run, xilinxRun, latticeRun, gowinRun,
       formalRun, scriptRun] at h;
     split at h <;> simp_all [formatTags, targetTags, topTags])

/-- Witness for the amended C5: generic variant at the scenario-1 input. -/
theorem C5_attribute_order_witness :
    ∃ a, a ∈ (runVariant .synth (c1Input "/run") envOkAll).output
      ∧ a.attributes
          = formatTags .synth (c1Input "/run").params
            ++ targetTags .synth (c1Input "/run").params
            ++ topTags (c1Input "/run").params := by
  refine ⟨((runVariant .synth (c1Input "/run") envOkAll).output).head (by decide), ?_, ?_⟩
  · exact List.head_mem _
  · exact C5_attribute_order .synth (c1Input "/run") envOkAll _ (List.head_mem _)

/-- C7 counterexample: Gowin with format "edif", exit status 0, and a
(stale) `netlist.edif` present in the run directory still produces an
output artifact - existence of the predicted file is all the resolver
checks - so "no output artifact regardless of (even zero) exit status"
fails. -/
theorem C7_counterexample :
    (runVariant .gowin c7Input envOkAll).output.map FileSet.files
      = [["netlist.edif"]] := rfl

/-- C7 (amended): for every target-family variant (iCE40, Xilinx, Lattice,
Gowin) given an effective output format its family does not support, the
composed synthesis directive carries no embedded write flag - it equals
the flags-only command - and no output artifact is produced whenever the
predicted `netlist.<format>` is absent from the run directory, whatever
the exit status (a stale predicted file with status 0 still yields an
artifact, per the counterexample). -/
theorem C7_family_unsupported_format (v : Variant) (input : TaskInput) (env : Env)
    (hv : v = .ice40 ∨ v = .xilinx ∨ v = .lattice ∨ v = .gowin)
    (hfmt : effFormat input.params ∉ familyFormats v)
    (hfile : env.isfile
      (pjoin input.rundir ("netlist." ++ effFormat input.params)) = false) :
    familyCmdStr v input.rundir input.params = familyFlagsStr v input.params
    ∧ (runVariant v input env).output = [] := by
  rcases hv with rfl | rfl | rfl | rfl <;>
    simp only [familyFormats, List.mem_cons, List.not_mem_nil, or_false,
      not_or] at hfmt
  · exact ⟨by simp [familyCmdStr, familyFlagsStr, ice40CmdStr, ice40FlagsStr,
        hfmt.1, hfmt.2.1, hfmt.2.2],
      by simp [runVariant, ice40Run, hfile]⟩
  · exact ⟨by simp [familyCmdStr, familyFlagsStr, xilinxCmdStr, xilinxFlagsStr,
        hfmt.1, hfmt.2.1, hfmt.2.2],
      by simp [runVariant, xilinxRun, hfile]⟩
  · exact ⟨by simp [familyCmdStr, familyFlagsStr, latticeCmdStr, latticeFlagsStr,
        hfmt.1, hfmt.2],
      by simp [runVariant, latticeRun, hfile]⟩
  · exact ⟨by simp [familyCmdStr, familyFlagsStr, gowinCmdStr, gowinFlagsStr,
        hfmt.1, hfmt.2],
      by simp [runVariant, gowinRun, hfile]⟩

/-- Witness for the amended C7: Gowin with format "edif" and the predicted
file absent. -/
theorem C7_family_unsupported_format_witness :
    familyCmdStr .gowin c7Input.rundir c7Input.params
      = familyFlagsStr .gowin c7Input.params
    ∧ (runVariant .gowin c7Input { status := 0, isfile := fun _ => false }).output
        = [] :=
  C7_family_unsupported_format .gowin c7Input
    { status := 0, isfile := fun _ => false }
    (Or.inr (Or.inr (Or.inr rfl))) (by decide) rfl

set_option maxRecDepth 32768 in
/-- Helper for C3: flag-presence iff for the generic `synth` directive. -/
theorem c3_synth_block : ∀ (t fl nf na rt : Bool),
    ((" -top".data <:+: (synthCmdStr (c3SynthP t fl nf na rt)).data) ↔ t = true)
    ∧ ((" -flatten".data <:+: (synthCmdStr (c3SynthP t fl nf na rt)).data) ↔ fl = true)
    ∧ ((" -nofsm".data <:+: (synthCmdStr (c3SynthP t fl nf na rt)).data) ↔ nf = true)
    ∧ ((" -noabc".data <:+: (synthCmdStr (c3SynthP t fl nf na rt)).data) ↔ na = true)
    ∧ ((" -retime".data <:+: (synthCmdStr (c3SynthP t fl nf na rt)).data) ↔ rt = true) := by
  decide

set_option maxRecDepth 32768 in
/-- Helper for C3: flag-presence iff for the `synth_ice40` directive. -/
theorem c3_ice40_block : ∀ (t df rt nc nb ds a9 : Bool),
    ((" -top".data <:+: (ice40CmdStr "/r" (c3Ice40P t df rt nc nb ds a9)).data) ↔ t = true)
    ∧ ((" -dff".data <:+: (ice40CmdStr "/r" (c3Ice40P t df rt nc nb ds a9)).data) ↔ df = true)
    ∧ ((" -retime".data <:+: (ice40CmdStr "/r" (c3Ice40P t df rt nc nb ds a9)).data) ↔ rt = true)
    ∧ ((" -nocarry".data <:+: (ice40CmdStr "/r" (c3Ice40P t df rt nc nb ds a9)).data) ↔ nc = true)
    ∧ ((" -nobram".data <:+: (ice40CmdStr "/r" (c3Ice40P t df rt nc nb ds a9)).data) ↔ nb = true)
    ∧ ((" -dsp".data <:+: (ice40CmdStr "/r" (c3Ice40P t df rt nc nb ds a9)).data) ↔ ds = true)
    ∧ ((" -abc9".data <:+: (ice40CmdStr "/r" (c3Ice40P t df rt nc nb ds a9)).data) ↔ a9 = true) := by
  decide

set_option maxRecDepth 32768 in
/-- Helper for C3: flag-presence iff for the `synth_xilinx` directive,
checked among the directive's space-separated tokens. -/
theorem c3_xilinx_block : ∀ (t fl df rt nb nd ni ncb a9 : Bool),
    (("-top".data ∈ splitWords (xilinxCmdStr "/r" (c3XilinxP t fl df rt nb nd ni ncb a9)).data) ↔ t = true)
    ∧ (("-flatten".data ∈ splitWords (xilinxCmdStr "/r" (c3XilinxP t fl df rt nb nd ni ncb a9)).data) ↔ fl = true)
    ∧ (("-dff".data ∈ splitWords (xilinxCmdStr "/r" (c3XilinxP t fl df rt nb nd ni ncb a9)).data) ↔ df = true)
    ∧ (("-retime".data ∈ splitWords (xilinxCmdStr "/r" (c3XilinxP t fl df rt nb nd ni ncb a9)).data) ↔ rt = true)
    ∧ (("-nobram".data ∈ splitWords (xilinxCmdStr "/r" (c3XilinxP t fl df rt nb nd ni ncb a9)).data) ↔ nb = true)
    ∧ (("-nodsp".data ∈ splitWords (xilinxCmdStr "/r" (c3XilinxP t fl df rt nb nd ni ncb a9)).data) ↔ nd = true)
    ∧ (("-noiopad".data ∈ splitWords (xilinxCmdStr "/r" (c3XilinxP t fl df rt nb nd ni ncb a9)).data) ↔ ni = true)
    ∧ (("-noclkbuf".data ∈ splitWords (xilinxCmdStr "/r" (c3XilinxP t fl df rt nb nd ni ncb a9)).data) ↔ ncb = true)
    ∧ (("-abc9".data ∈ splitWords (xilinxCmdStr "/r" (c3XilinxP t fl df rt nb nd ni ncb a9)).data) ↔ a9 = true) := by
  decide

set_option maxRecDepth 32768 in
/-- Helper for C3: flag-presence iff for the `synth_lattice` directive. -/
theorem c3_lattice_block : ∀ (t df rt : Bool),
    ((" -top".data <:+: (latticeCmdStr "/r" (c3LatticeP t df rt)).data) ↔ t = true)
    ∧ ((" -dff".data <:+: (latticeCmdStr "/r" (c3LatticeP t df rt)).data) ↔ df = true)
    ∧ ((" -retime".data <:+: (latticeCmdStr "/r" (c3LatticeP t df rt)).data) ↔ rt = true) := by
  decide

set_option maxRecDepth 32768 in
/-- Helper for C3: flag-presence iff for the `synth_gowin` directive. -/
theorem c3_gowin_block : ∀ (t : Bool),
    ((" -top".data <:+: (gowinCmdStr "/r" { top := if t then "m" else "" }).data) ↔ t = true) := by
  decide

set_option maxRecDepth 32768 in
/-- Helper for C3: flag-presence iff for the formal `write_smt2` directive. -/
theorem c3_formal_block : ∀ (b m w : Bool),
    ((" -bv".data <:+: (smt2CmdStr "/r" (c3FormalP b m w)).data) ↔ b = true)
    ∧ ((" -mem".data <:+: (smt2CmdStr "/r" (c3FormalP b m w)).data) ↔ m = true)
    ∧ ((" -wires".data <:+: (smt2CmdStr "/r" (c3FormalP b m w)).data) ↔ w = true) := by
  decide

/-- C3: across the optional-flag tables of the generic, iCE40, Xilinx,
Lattice and Gowin synthesis directives and the formal variant's
`write_smt2` directive, each optional flag occurs in the composed
directive exactly when its parameter is truthy (set); an absent parameter
never emits the flag.  All boolean flag parameters range over every
combination, with the top parameter toggled between unset and a flag-free
module name.  Flag occurrence is checked as a substring of the directive
(and for the Xilinx variant, equivalently, among the directive's
space-separated tokens via `splitWords`). -/
theorem C3_flag_iff_param :
    (∀ (t fl nf na rt : Bool),
      ((" -top".data <:+: (synthCmdStr (c3SynthP t fl nf na rt)).data) ↔ t = true)
      ∧ ((" -flatten".data <:+: (synthCmdStr (c3SynthP t fl nf na rt)).data) ↔ fl = true)
      ∧ ((" -nofsm".data <:+: (synthCmdStr (c3SynthP t fl nf na rt)).data) ↔ nf = true)
      ∧ ((" -noabc".data <:+: (synthCmdStr (c3SynthP t fl nf na rt)).data) ↔ na = true)
      ∧ ((" -retime".data <:+: (synthCmdStr (c3SynthP t fl nf na rt)).data) ↔ rt = true))
    ∧ (∀ (t df rt nc nb ds a9 : Bool),
      ((" -top".data <:+: (ice40CmdStr "/r" (c3Ice40P t df rt nc nb ds a9)).data) ↔ t = true)
      ∧ ((" -dff".data <:+: (ice40CmdStr "/r" (c3Ice40P t df rt nc nb ds a9)).data) ↔ df = true)
      ∧ ((" -retime".data <:+: (ice40CmdStr "/r" (c3Ice40P t df rt nc nb ds a9)).data) ↔ rt = true)
      ∧ ((" -nocarry".data <:+: (ice40CmdStr "/r" (c3Ice40P t df rt nc nb ds a9)).data) ↔ nc = true)
      ∧ ((" -nobram".data <:+: (ice40CmdStr "/r" (c3Ice40P t df rt nc nb ds a9)).data) ↔ nb = true)
      ∧ ((" -dsp".data <:+: (ice40CmdStr "/r" (c3Ice40P t df rt nc nb ds a9)).data) ↔ ds = true)
      ∧ ((" -abc9".data <:+: (ice40CmdStr "/r" (c3Ice40P t df rt nc nb ds a9)).data) ↔ a9 = true))
    ∧ (∀ (t fl df rt nb nd ni ncb a9 : Bool),
      (("-top".data ∈ splitWords (xilinxCmdStr "/r" (c3XilinxP t fl df rt nb nd ni ncb a9)).data) ↔ t = true)
      ∧ (("-flatten".data ∈ splitWords (xilinxCmdStr "/r" (c3XilinxP t fl df rt nb nd ni ncb a9)).data) ↔ fl = true)
      ∧ (("-dff".data ∈ splitWords (xilinxCmdStr "/r" (c3XilinxP t fl df rt nb nd ni ncb a9)).data) ↔ df = true)
      ∧ (("-retime".data ∈ splitWords (xilinxCmdStr "/r" (c3XilinxP t fl df rt nb nd ni ncb a9)).data) ↔ rt = true)
      ∧ (("-nobram".data ∈ splitWords (xilinxCmdStr "/r" (c3XilinxP t fl df rt nb nd ni ncb a9)).data) ↔ nb = true)
      ∧ (("-nodsp".data ∈ splitWords (xilinxCmdStr "/r" (c3XilinxP t fl df rt nb nd ni ncb a9)).data) ↔ nd = true)
      ∧ (("-noiopad".data ∈ splitWords (xilinxCmdStr "/r" (c3XilinxP t fl df rt nb nd ni ncb a9)).data) ↔ ni = true)
      ∧ (("-noclkbuf".data ∈ splitWords (xilinxCmdStr "/r" (c3XilinxP t fl df rt nb nd ni ncb a9)).data) ↔ ncb = true)
      ∧ (("-abc9".data ∈ splitWords (xilinxCmdStr "/r" (c3XilinxP t fl df rt nb nd ni ncb a9)).data) ↔ a9 = true))
    ∧ (∀ (t df rt : Bool),
      ((" -top".data <:+: (latticeCmdStr "/r" (c3LatticeP t df rt)).data) ↔ t = true)
      ∧ ((" -dff".data <:+: (latticeCmdStr "/r" (c3LatticeP t df rt)).data) ↔ df = true)
      ∧ ((" -retime".data <:+: (latticeCmdStr "/r" (c3LatticeP t df rt)).data) ↔ rt = true))
    ∧ (∀ (t : Bool),
      ((" -top".data <:+: (gowinCmdStr "/r" { top := if t then "m" else "" }).data) ↔ t = true))
    ∧ (∀ (b m w : Bool),
      ((" -bv".data <:+: (smt2CmdStr "/r" (c3FormalP b m w)).data) ↔ b = true)
      ∧ ((" -mem".data <:+: (smt2CmdStr "/r" (c3FormalP b m w)).data) ↔ m = true)
      ∧ ((" -wires".data <:+: (smt2CmdStr "/r" (c3FormalP b m w)).data) ↔ w = true)) :=
  ⟨c3_synth_block, c3_ice40_block, c3_xilinx_block, c3_lattice_block,
   c3_gowin_block, c3_formal_block⟩

/-- Witness for C10: empty format, status 0, all files exist — no artifact. -/
theorem C10_script_artifact_gate_witness :
    (scriptRun c10Input envOkAll).output = [] :=
  (C10_script_artifact_gate c10Input envOkAll).1 rfl

end Yosys
